import Mathlib

/-!
Verification of the lead-intake relay and the client wizard of the
"BALANCE Cipher" funnel repository.

The repository ships several near-duplicate versions of the serverless
relay `/api/applications.js` plus a client-side React wizard (`App.tsx`).
This file gives a shallow embedding of the parts the claims are about:

* a JSON value model (`Json`) for request/response bodies,
* character-level models of the JavaScript string primitives the code
  uses (`trim`, `toUpperCase`, `toLowerCase`, `slice`), restricted to
  ASCII, which is all the code's literals use,
* one pure function per relay variant, each taking the `JSON.parse`
  behaviour and the network outcome as explicit oracles and returning
  the response together with the list of outbound requests issued,
* the wizard's state record and the handlers `resetFlow`, `submitCode`,
  `buildCanonPayload`, and a step relation for the email-submission
  subsystem of `App.tsx`.
-/

/-- ASCII whitespace as recognised by the JavaScript `trim` family
(space, tab, LF, CR, VT, FF); non-ASCII whitespace is not modelled
since no value in this code base contains it. -/
def jsIsWs (c : Char) : Bool :=
  c = ' ' || c = '\t' || c = '\n' || c = '\r' || c = Char.ofNat 11 || c = Char.ofNat 12

/-- Character-level body of JavaScript `String.prototype.trim`. -/
def trimList (l : List Char) : List Char :=
  ((l.dropWhile jsIsWs).reverse.dropWhile jsIsWs).reverse

/-- Model of JavaScript `s.trim()`. -/
def jsTrim (s : String) : String :=
  String.mk (trimList s.data)

/-- ASCII upper-casing of one character, as `toUpperCase` acts on the
ASCII range. -/
def jsUpperChar (c : Char) : Char :=
  if 'a' ≤ c && c ≤ 'z' then Char.ofNat (c.toNat - 32) else c

/-- ASCII lower-casing of one character. -/
def jsLowerChar (c : Char) : Char :=
  if 'A' ≤ c && c ≤ 'Z' then Char.ofNat (c.toNat + 32) else c

/-- Model of JavaScript `s.toUpperCase()` (ASCII range). -/
def jsToUpper (s : String) : String :=
  String.mk (s.data.map jsUpperChar)

/-- Model of JavaScript `s.toLowerCase()` (ASCII range). -/
def jsToLower (s : String) : String :=
  String.mk (s.data.map jsLowerChar)

/-- Model of JavaScript `s.slice(0, n)` (ASCII: code units = chars). -/
def jsTake (n : Nat) (s : String) : String :=
  String.mk (s.data.take n)

/-- Model of JavaScript `s.slice(-n)`: the last `min n (length s)`
characters. -/
def jsTakeLast (n : Nat) (s : String) : String :=
  String.mk ((s.data.reverse.take n).reverse)

/-- Model of `baseUrl.replace(/\/$/, "")`: drop one trailing slash. -/
def dropTrailingSlash (s : String) : String :=
  match s.data.getLast? with
  | some '/' => String.mk s.data.dropLast
  | _ => s

/-- Model of `baseUrl.replace(/\/+$/, "")`: drop every trailing slash. -/
def dropTrailingSlashes (s : String) : String :=
  String.mk ((s.data.reverse.dropWhile (fun c => c = '/')).reverse)

/-- Substring test at the character level, modelling JavaScript
`hay.includes(needle)`. -/
def listContainsSub (needle : List Char) : List Char → Bool
  | [] => needle.isEmpty
  | c :: rest => needle.isPrefixOf (c :: rest) || listContainsSub needle rest

/-- Model of `hay.includes(needle)` on strings. -/
def jsIncludes (hay needle : String) : Bool :=
  listContainsSub needle.data hay.data

/-- JSON values, as produced by `JSON.parse` and consumed by
`res.json(...)`. Numbers are modelled as integers, which covers every
numeric literal in this code base. Objects are ordered field lists, as
JavaScript object literals are. -/
inductive Json where
  | null
  | bool (b : Bool)
  | num (n : Int)
  | str (s : String)
  | arr (elems : List Json)
  | obj (fields : List (String × Json))

/-- JavaScript truthiness of a JSON value (`undefined` is modelled as
an absent `Option` at use sites). -/
def jsTruthy : Json → Bool
  | .null => false
  | .bool b => b
  | .num n => n != 0
  | .str s => s != ""
  | .arr _ => true
  | .obj _ => true

/-- Model of `typeof v === "object"`, which is true for objects, arrays
and `null` in JavaScript. -/
def jsTypeofObject : Json → Bool
  | .obj _ => true
  | .arr _ => true
  | .null => true
  | _ => false

/-- Property access `v[key]` returning `none` for `undefined`. -/
def getProp (j : Json) (key : String) : Option Json :=
  match j with
  | .obj fields => (fields.find? (fun f => f.fst == key)).map Prod.snd
  | _ => none

/-- Truthiness of a possibly-`undefined` value. -/
def jsTruthyOpt : Option Json → Bool
  | none => false
  | some v => jsTruthy v

mutual

/-- Does the string `needle` occur as a string leaf value anywhere in
the JSON tree? Used to state that a response does not carry the
credential value. -/
def jsonContainsStr (needle : String) : Json → Bool
  | .null => false
  | .bool _ => false
  | .num _ => false
  | .str s => s == needle
  | .arr elems => jsonListContainsStr needle elems
  | .obj fields => jsonFieldsContainStr needle fields

/-- List version of `jsonContainsStr`. -/
def jsonListContainsStr (needle : String) : List Json → Bool
  | [] => false
  | j :: rest => jsonContainsStr needle j || jsonListContainsStr needle rest

/-- Field-list version of `jsonContainsStr` (checks values only). -/
def jsonFieldsContainStr (needle : String) : List (String × Json) → Bool
  | [] => false
  | f :: rest => jsonContainsStr needle f.snd || jsonFieldsContainStr needle rest

end

/-! ### Relay environment and network model -/

/-- The environment variables the relay reads. A variable that is unset
is modelled as the empty string, which is falsy in JavaScript exactly
like `undefined` after the `|| ""` defaults the handlers apply. -/
structure Env where
  baseUrl : String
  apiKey : String
  debugFlag : String

/-- The upstream response observed if the outbound `fetch` resolves. -/
structure UpResp where
  status : Nat
  contentType : String
  bodyText : String

/-- Outcome of the single outbound `fetch`: either a rejection with an
error message, or the upstream response. -/
structure Net where
  fetchErr : Option String
  upstream : UpResp

/-- An outbound HTTP request issued by a handler. The body is carried
as the JSON value handed to `JSON.stringify`. Headers are listed in the
order the object literal hands them to `fetch`, which appends each
entry to the (case-insensitive) header list. -/
structure OutboundReq where
  url : String
  method : String
  headers : List (String × String)
  body : Json

/-- A relay response: the status and the optional JSON body
(`res.end()` with no body is `none`). -/
structure RelayResponse where
  status : Nat
  body : Option Json

/-- Oracle for `JSON.parse`: a value, or a thrown error message. -/
def JsonParse := String → Except String Json

/-- Model of `upstream.ok`: status in the 2xx range. -/
def statusOk (s : Nat) : Bool :=
  200 ≤ s && s < 300

/-- Number of credential headers in a header list, counted under the
case-insensitive header-name semantics of HTTP. -/
def credHeaderCount (hs : List (String × String)) : Nat :=
  (hs.filter (fun h => jsToLower h.fst == "x-api-key")).length

/-! ### Relay variant 1: `api/applications.js` with raw body reading
(source `src/unnamed/part_000`). Reads and parses the raw body itself;
normalises upstream failures to 502. -/

/-- Embedding of the part_000 handler. `rawBody` is the outcome of
`readRawBody` (rejection message or raw string). -/
def handlerRaw (parse : JsonParse) (env : Env) (net : Net)
    (method : String) (rawBody : Except String String) :
    RelayResponse × List OutboundReq :=
  if method = "OPTIONS" then (⟨200, none⟩, [])
  else if method ≠ "POST" then
    (⟨405, some (.obj [("ok", .bool false), ("error", .str "Method not allowed")])⟩, [])
  else
    let baseUrl := env.baseUrl
    let apiKey := env.apiKey
    let debug := jsToLower env.debugFlag == "true"
    if baseUrl = "" || apiKey = "" then
      (⟨500, some (.obj [("ok", .bool false),
        ("error", .str "Missing REPLIT_CRM_BASE_URL or REPLIT_NP_API_KEY"),
        ("missing", .obj [("REPLIT_CRM_BASE_URL", .bool (baseUrl == "")),
                          ("REPLIT_NP_API_KEY", .bool (apiKey == ""))])])⟩, [])
    else
      match rawBody with
      | .error e =>
        (⟨400, some (.obj [("ok", .bool false),
          ("error", .str (if e = "" then "Failed reading body" else e))])⟩, [])
      | .ok raw =>
        if raw = "" || jsTrim raw = "" then
          (⟨400, some (.obj [("ok", .bool false),
            ("error", .str "Empty request body received by relay"),
            ("hint", .str "Your frontend must POST JSON to /api/applications")])⟩, [])
        else
          match parse raw with
          | .error msg =>
            (⟨400, some (.obj [("ok", .bool false),
              ("error", .str "Invalid JSON body"),
              ("detail", .str (if msg = "" then "Invalid JSON" else msg)),
              ("rawPreview", .str (jsTake 500 raw))])⟩, [])
          | .ok payload =>
            let upstreamUrl := dropTrailingSlash baseUrl ++ "/api/applications"
            let call : OutboundReq :=
              ⟨upstreamUrl, "POST",
               [("Content-Type", "application/json"), ("X-API-Key", apiKey)],
               payload⟩
            match net.fetchErr with
            | some e =>
              (⟨500, some (.obj [("ok", .bool false),
                ("error", .str (if e = "" then "Unexpected relay error" else e))])⟩, [call])
            | none =>
              let text := net.upstream.bodyText
              let upstreamBody :=
                match parse text with
                | .ok j => j
                | .error _ => .obj [("raw", .str text)]
              if !(statusOk net.upstream.status) then
                (⟨502, some (.obj ([("ok", .bool false),
                  ("message", .str "Upstream CRM returned non-OK response"),
                  ("upstreamStatus", .num (Int.ofNat net.upstream.status)),
                  ("upstreamBody", upstreamBody)] ++
                  (if debug then [("upstreamUrl", .str upstreamUrl)] else [])))⟩, [call])
              else
                (⟨200, some (.obj ([("ok", .bool true),
                  ("upstream", upstreamBody)] ++
                  (if debug then [("upstreamUrl", .str upstreamUrl)] else [])))⟩, [call])

/-! ### Relay variant 2: strict validating handler
(source `src/unnamed/part_003`, first document; `src/unnamed/part_001`
is the CommonJS twin). Trims the environment values, validates the
`applicant` key, decodes the upstream body by content type, and passes
the upstream status through as its own. -/

/-- Embedding of the strict part_003 handler. `body` is `req.body` as
provided by the platform (a string body is `Json.str`). -/
def handlerStrict (parse : JsonParse) (env : Env) (net : Net)
    (method : String) (body : Json) :
    RelayResponse × List OutboundReq :=
  let debug := jsToLower env.debugFlag == "true"
  if method = "OPTIONS" then (⟨204, none⟩, [])
  else if method ≠ "POST" then
    (⟨405, some (.obj [("ok", .bool false), ("error", .str "Method Not Allowed"),
      ("allowed", .arr [.str "POST"])])⟩, [])
  else
    let baseUrl := jsTrim env.baseUrl
    let apiKey := jsTrim env.apiKey
    if baseUrl = "" || apiKey = "" then
      (⟨500, some (.obj ([("ok", .bool false),
        ("error", .str "Missing required environment variables"),
        ("missing", .obj [("REPLIT_CRM_BASE_URL", .bool (baseUrl == "")),
                          ("REPLIT_NP_API_KEY", .bool (apiKey == ""))])] ++
        (if debug then
          [("hint", .str "Set env vars in Vercel, then redeploy.")] else [])))⟩, [])
    else
      let targetUrl := dropTrailingSlashes baseUrl ++ "/api/applications"
      let decoded : Except Unit Json :=
        match body with
        | .str s => match parse s with
          | .ok j => .ok j
          | .error _ => .error ()
        | j => .ok j
      match decoded with
      | .error _ =>
        (⟨400, some (.obj ([("ok", .bool false),
          ("error", .str "Invalid JSON payload")] ++
          (if debug then
            [("receivedType", .str "string"), ("receivedBody", body)] else [])))⟩, [])
      | .ok payload =>
        let hasApplicant :=
          jsTruthy payload && jsTypeofObject payload &&
          jsTruthyOpt (getProp payload "applicant")
        if !hasApplicant then
          (⟨400, some (.obj ([("ok", .bool false),
            ("error", .str "Payload missing required 'applicant' object")] ++
            (if debug then [("receivedPayload", payload)] else [])))⟩, [])
        else
          let call : OutboundReq :=
            ⟨targetUrl, "POST",
             [("Content-Type", "application/json"), ("X-API-Key", apiKey)],
             payload⟩
          match net.fetchErr with
          | some e =>
            (⟨500, some (.obj ([("ok", .bool false),
              ("error", .str "Relay failed (network/runtime error)")] ++
              (if debug then
                [("details", .str e), ("targetUrl", .str targetUrl)] else [])))⟩, [call])
          | none =>
            let ct := net.upstream.contentType
            let text := net.upstream.bodyText
            let ubody : Except String (Json ⊕ String) :=
              if jsIncludes ct "application/json" then
                match parse text with
                | .ok j => .ok (.inl j)
                | .error e => .error e
              else .ok (.inr text)
            match ubody with
            | .error e =>
              (⟨500, some (.obj ([("ok", .bool false),
                ("error", .str "Relay failed (network/runtime error)")] ++
                (if debug then
                  [("details", .str e), ("targetUrl", .str targetUrl)] else [])))⟩, [call])
            | .ok upstreamBody =>
              if !(statusOk net.upstream.status) then
                (⟨net.upstream.status, some (.obj ([("ok", .bool false),
                  ("error", .str "Upstream CRM rejected the request"),
                  ("status", .num (Int.ofNat net.upstream.status))] ++
                  (if debug then
                    [("targetUrl", .str targetUrl),
                     ("upstreamBody", match upstreamBody with
                       | .inl j => j
                       | .inr t => .str t),
                     ("sentPayload", payload)]
                   else
                    [("upstreamBody", match upstreamBody with
                       | .inl j => j
                       | .inr t => .str (jsTake 500 t))])))⟩, [call])
              else
                (⟨200, some (.obj ([("ok", .bool true),
                  ("message", .str "Relayed to CRM successfully")] ++
                  (if debug then
                    [("targetUrl", .str targetUrl),
                     ("upstreamBody", match upstreamBody with
                       | .inl j => j
                       | .inr t => .str t)]
                   else [])))⟩, [call])

/-! ### Relay variant 3: duplicate-credential-header handler
(source `src/unnamed/part_003`, second document). No OPTIONS branch, no
body validation, and the `fetch` headers object lists the credential
under two spellings, `X-API-Key` and `X-API-KEY` — two distinct object
keys, each appended to the outbound header list, which under the
case-insensitive header-name semantics is the same credential header
twice. -/

/-- Debug block `safeDebug` of the duplicate-header handler. -/
def dupSafeDebug (env : Env) : List (String × Json) :=
  if env.debugFlag = "true" then
    [("debug", .obj [
      ("hasBaseUrl", .bool (env.baseUrl != "")),
      ("hasApiKey", .bool (env.apiKey != "")),
      ("apiKeyLen", .num (Int.ofNat env.apiKey.length)),
      ("apiKeyLast4", .str (jsTakeLast 4 env.apiKey)),
      ("apiKeyPrefix8", .str (jsTake 8 env.apiKey))])]
  else []

/-- Embedding of the second part_003 handler. -/
def handlerDup (parse : JsonParse) (env : Env) (net : Net)
    (method : String) (body : Json) :
    RelayResponse × List OutboundReq :=
  if method ≠ "POST" then
    (⟨405, some (.obj [("ok", .bool false), ("error", .str "Method not allowed")])⟩, [])
  else if env.baseUrl = "" || env.apiKey = "" then
    (⟨500, some (.obj ([("ok", .bool false),
      ("error", .str "Missing REPLIT_CRM_BASE_URL or REPLIT_NP_API_KEY")] ++
      dupSafeDebug env))⟩, [])
  else
    let upstreamUrl := dropTrailingSlash env.baseUrl ++ "/api/applications"
    let call : OutboundReq :=
      ⟨upstreamUrl, "POST",
       [("Content-Type", "application/json"),
        ("X-API-Key", env.apiKey),
        ("X-API-KEY", env.apiKey)],
       body⟩
    match net.fetchErr with
    | some e =>
      (⟨500, some (.obj ([("ok", .bool false),
        ("error", .str (if e = "" then "Unexpected error" else e))] ++
        dupSafeDebug env))⟩, [call])
    | none =>
      let text := net.upstream.bodyText
      let parsed :=
        match parse text with
        | .ok j => j
        | .error _ => .obj [("raw", .str text)]
      if !(statusOk net.upstream.status) then
        (⟨502, some (.obj ([("ok", .bool false),
          ("message", .str "Upstream CRM returned non-OK response"),
          ("upstreamStatus", .num (Int.ofNat net.upstream.status)),
          ("upstreamBody", parsed),
          ("upstreamUrl", .str upstreamUrl)] ++ dupSafeDebug env))⟩, [call])
      else
        (⟨200, some (.obj ([("ok", .bool true),
          ("upstream", parsed)] ++ dupSafeDebug env))⟩, [call])

/-! ### Relay variant 4: minimal handler (source `src/unnamed/part_002`).
No CORS and no OPTIONS branch: every non-POST method, pre-flight
included, gets the 405 error body. The missing-configuration response
names both environment variables jointly without flagging which one is
absent. -/

/-- Embedding of the part_002 handler. -/
def handlerMin (parse : JsonParse) (env : Env) (net : Net)
    (method : String) (body : Json) :
    RelayResponse × List OutboundReq :=
  if method ≠ "POST" then
    (⟨405, some (.obj [("ok", .bool false), ("error", .str "Method not allowed")])⟩, [])
  else if env.baseUrl = "" || env.apiKey = "" then
    (⟨500, some (.obj [("ok", .bool false),
      ("error", .str "Missing REPLIT_CRM_BASE_URL or REPLIT_NP_API_KEY")])⟩, [])
  else
    let upstreamUrl := dropTrailingSlash env.baseUrl ++ "/api/applications"
    let call : OutboundReq :=
      ⟨upstreamUrl, "POST",
       [("Content-Type", "application/json"), ("X-API-Key", env.apiKey)],
       body⟩
    match net.fetchErr with
    | some e =>
      (⟨500, some (.obj [("ok", .bool false),
        ("error", .str (if e = "" then "Unexpected error" else e))])⟩, [call])
    | none =>
      let text := net.upstream.bodyText
      let parsed :=
        match parse text with
        | .ok j => j
        | .error _ => .obj [("raw", .str text)]
      if !(statusOk net.upstream.status) then
        (⟨502, some (.obj [("ok", .bool false),
          ("upstreamStatus", .num (Int.ofNat net.upstream.status)),
          ("upstreamBody", parsed)])⟩, [call])
      else
        (⟨200, some (.obj [("ok", .bool true), ("upstream", parsed)])⟩, [call])

/-! ### Relay variant 5: lenient handler (embedded after the wizard in
`src/App.tsx`). A string body that fails to parse is kept as the string
and still forwarded upstream (`JSON.stringify` then renders it as a
JSON string literal); a nullish body is replaced by an empty object. -/

/-- Embedding of the lenient handler from App.tsx. -/
def handlerLenient (parse : JsonParse) (env : Env) (net : Net)
    (method : String) (body : Json) :
    RelayResponse × List OutboundReq :=
  if method ≠ "POST" then
    (⟨405, some (.obj [("ok", .bool false), ("error", .str "Method not allowed")])⟩, [])
  else
    let debug := jsToLower env.debugFlag == "true"
    if env.baseUrl = "" || env.apiKey = "" then
      (⟨500, some (.obj ([("ok", .bool false),
        ("error", .str "Missing REPLIT_CRM_BASE_URL or REPLIT_NP_API_KEY")] ++
        (if debug then
          [("debug", .obj [("hasBaseUrl", .bool (env.baseUrl != "")),
                           ("hasApiKey", .bool (env.apiKey != ""))])]
         else [])))⟩, [])
    else
      let decoded :=
        match body with
        | .str s => match parse s with
          | .ok j => j
          | .error _ => .str s
        | j => j
      let sent := match decoded with
        | .null => Json.obj []
        | j => j
      let upstreamUrl := dropTrailingSlash env.baseUrl ++ "/api/applications"
      let call : OutboundReq :=
        ⟨upstreamUrl, "POST",
         [("Content-Type", "application/json"), ("X-API-Key", env.apiKey)],
         sent⟩
      match net.fetchErr with
      | some e =>
        (⟨500, some (.obj ([("ok", .bool false),
          ("error", .str (if e = "" then "Unexpected error" else e))] ++
          (if debug then [("debug", .obj [("stack", .str e)])] else [])))⟩, [call])
      | none =>
        let text := net.upstream.bodyText
        let parsed :=
          match parse text with
          | .ok j => j
          | .error _ => .obj [("raw", .str text)]
        if !(statusOk net.upstream.status) then
          (⟨502, some (.obj ([("ok", .bool false),
            ("upstreamStatus", .num (Int.ofNat net.upstream.status)),
            ("upstreamBody", parsed)] ++
            (if debug then [("debug", .obj [("upstreamUrl", .str upstreamUrl)])] else [])))⟩,
           [call])
        else
          (⟨200, some (.obj ([("ok", .bool true), ("upstream", parsed)] ++
            (if debug then [("debug", .obj [("upstreamUrl", .str upstreamUrl)])] else [])))⟩,
           [call])

/-! ### Wizard (client state machine, `src/App.tsx`) -/

/-- The wizard's view type from App.tsx. `info` is the final screen of
the flow (the spec's `final` stage). -/
inductive View where
  | landing
  | p2
  | p3
  | p4
  | p5
  | info
deriving DecidableEq

/-- Sub-stage of the email screen. -/
inductive P5Stage where
  | email
  | code
deriving DecidableEq

/-- Send status of the email submission. -/
inductive SendState where
  | idle
  | sending
  | sent
  | error
deriving DecidableEq

/-- The wizard's session state: the `useState` cells of `App`, the
pending reward timer (`rewardTimerRef`), and `inFlight`, which models
the number of unresolved `postToCrm` promises of this session (0 or 1
in any reachable state; this is the environment-side counterpart of
`sendState`). -/
structure WState where
  view : View
  firstName : String
  lastName : String
  email : String
  accessCode : String
  codeInput : String
  p2First : String
  p5Stage : P5Stage
  sendState : SendState
  sendMsg : String
  rewardOn : Bool
  rewardLetter : Option Char
  rewardCopy : String
  rewardTimer : Option Nat
  fatalError : Option String
  inFlight : Nat

/-- The character set of `generateAccessCode`. -/
def codeChars : List Char :=
  ['A','B','C','D','E','F','G','H','J','K','L','M','N','P','Q','R','S',
   'T','U','V','W','X','Y','Z','2','3','4','5','6','7','8','9']

/-- One character draw `chars[Math.floor(Math.random() * chars.length)]`;
the index is always below the length, so the default is never used. -/
def codeCharAt (i : Fin 32) : Char :=
  codeChars.getD i.val 'A'

/-- Embedding of `generateAccessCode`: the source loops exactly 8
times, so the random draws are a list of 8 indices below 32. -/
def genAccessCode (rs : List (Fin 32)) : String :=
  String.mk (rs.map codeCharAt)

/-- Embedding of `safeTrimMax`: `v.trim().slice(0, maxLen)`. -/
def safeTrimMax (v : String) (maxLen : Nat) : String :=
  jsTake maxLen (jsTrim v)

/-- Character class `[^\s@]` of the email regular expression. -/
def emailChar (c : Char) : Bool :=
  !(jsIsWs c) && c != '@'

/-- Does the list contain a dot that is neither first nor last? This is
exactly when `l` splits as `B ++ "." ++ C` with `B`, `C` non-empty,
which is what the greedy-with-backtracking tail of the regular
expression requires. -/
def hasInteriorDot (l : List Char) : Bool :=
  (List.range l.length).any fun i =>
    decide (0 < i) && decide (i + 1 < l.length) && (l.getD i ' ' == '.')

/-- Embedding of the test of `/^[^\s@]+@[^\s@]+\.[^\s@]+$/`: a match
exists exactly when there is a single `@` splitting the string into a
non-empty `[^\s@]`-part and a tail that is `[^\s@]`-only with an
interior dot. -/
def regexEmailMatch (l : List Char) : Bool :=
  match l.splitOn '@' with
  | [a, rest] =>
    !a.isEmpty && a.all emailChar && !rest.isEmpty && rest.all emailChar &&
    hasInteriorDot rest
  | _ => false

/-- Embedding of `isValidEmail`: the regular expression applied to the
trimmed string. -/
def isValidEmail (email : String) : Bool :=
  regexEmailMatch (jsTrim email).data

/-- Embedding of `resetFlow`: clears every captured field, the reward
overlay state and the pending reward timer (`clearRewardTimer`), resets
the send status, and leaves the current view untouched — `resetFlow`
contains no `goTo`/`setView` call. In-flight network requests cannot be
cancelled, so `inFlight` is unchanged. -/
def resetFlow (s : WState) : WState :=
  { s with p2First := "", firstName := "", lastName := "", email := "",
           accessCode := "", codeInput := "",
           p5Stage := .email, sendState := .idle, sendMsg := "",
           rewardTimer := none, rewardOn := false,
           rewardLetter := none, rewardCopy := "",
           fatalError := none }

/-- Embedding of `goTo`: set the view (the scroll call has no state
effect). -/
def goTo (v : View) (s : WState) : WState :=
  { s with view := v }

/-- Embedding of `goToDecode` (the landing screen's start action):
`resetFlow` then `goTo("p2")`. -/
def goToDecode (s : WState) : WState :=
  goTo .p2 (resetFlow s)

/-- Embedding of `submitCode`: no-op while the reward overlay is
showing; trim and upper-case both the stored access code and the
entered code; an empty entered code is ignored; a non-empty expected
code that differs from the entered one is rejected; otherwise advance
to the final screen. -/
def submitCode (s : WState) : WState :=
  if s.rewardOn then s
  else
    let expected := jsToUpper (jsTrim s.accessCode)
    let entered := jsToUpper (jsTrim s.codeInput)
    if entered = "" then s
    else if expected ≠ "" ∧ entered ≠ expected then s
    else goTo .info s

/-- The `tracking` record of the lead payload (free-form in the source
type; its concrete fields at the single construction site). Optional
entries are the browser globals that may be unavailable. -/
structure CrmTracking where
  event : String
  accessCode : String
  userAgent : Option String
  pageUrl : Option String
  referrer : Option String

/-- The fixed-shape `applicant` record the upstream CRM dictates. -/
structure Applicant where
  firstName : String
  lastName : String
  email : String
  phone : String
  consent : Bool
  vehicleType : String
  incomeAbove1800 : String
  monthlyIncome : String
  yearsReceivingIncome : Int
  monthsReceivingIncome : Int
  dobMonth : Int
  dobDay : Int
  dobYear : Int
  companyName : String
  jobTitle : String
  housingPayment : String
  street1 : String
  street2 : String
  city : String
  state : String
  zip : String
  yearsAtAddress : Int
  monthsAtAddress : Int
  ssn : String

/-- The lead payload type `CrmCanonPayload` of App.tsx. -/
structure CrmCanonPayload where
  source : String
  requestId : String
  startedAt : String
  tracking : CrmTracking
  applicant : Applicant

/-- Canon source constant of this funnel. -/
def CRM_SOURCE : String := "balance-cypher-v2-clean"

/-- Embedding of `buildCanonPayload`. The generated request id, the
timestamp and the browser context are environment inputs. -/
def buildCanonPayload (requestId startedAt : String)
    (ua pageUrl referrer : Option String)
    (firstName lastName email accessCode : String) : CrmCanonPayload :=
  { source := CRM_SOURCE
    requestId := requestId
    startedAt := startedAt
    tracking :=
      { event := "decode_email_submit"
        accessCode := accessCode
        userAgent := ua
        pageUrl := pageUrl
        referrer := referrer }
    applicant :=
      { firstName := safeTrimMax firstName 40
        lastName := safeTrimMax lastName 60
        email := safeTrimMax email 120
        phone := ""
        consent := true
        vehicleType := ""
        incomeAbove1800 := ""
        monthlyIncome := ""
        yearsReceivingIncome := 0
        monthsReceivingIncome := 0
        dobMonth := 0
        dobDay := 0
        dobYear := 0
        companyName := ""
        jobTitle := ""
        housingPayment := ""
        street1 := ""
        street2 := ""
        city := ""
        state := ""
        zip := ""
        yearsAtAddress := 0
        monthsAtAddress := 0
        ssn := "" } }

/-! ### Email-submission subsystem of the wizard

The submission protocol of `submitEmailFromP5`: the synchronous part of
the handler (up to and including the `fetch` issued by `postToCrm`) is
one step; the resolution of that promise (the code after the `await`)
is another. `inFlight` counts unresolved promises; a promise can only
resolve if one is pending. Per the spec, a session ends at reset, so
session traces contain no reset event. -/

/-- Synchronous part of `submitEmailFromP5`. Returns the new state and
the number of outbound calls issued (0 or 1). `rs` are the random draws
`generateAccessCode` would use if no access code exists yet. -/
def wizardSubmitEmail (rs : List (Fin 32)) (s : WState) : WState × Nat :=
  if s.rewardOn then (s, 0)
  else if s.sendState = SendState.sending then (s, 0)
  else
    let em := safeTrimMax s.email 120
    if !(isValidEmail em) then (s, 0)
    else
      let nextCode := if s.accessCode ≠ "" then s.accessCode else genAccessCode rs
      ({ s with email := em, accessCode := nextCode,
                sendState := .sending,
                sendMsg := "Sending your map delivery request...",
                inFlight := s.inFlight + 1 }, 1)

/-- Continuation of `submitEmailFromP5` after `postToCrm` settles: on
success `sendState` becomes `sent` and `showReward("L", ...)` starts
the reward overlay and its timer; on failure `sendState` becomes
`error` with the message shown. Either way one pending promise is
consumed. -/
def wizardComplete (success : Bool) (msg : String) (tid : Nat)
    (s : WState) : WState :=
  if success then
    { s with sendState := .sent, sendMsg := msg,
             rewardOn := true, rewardLetter := some 'L',
             rewardCopy := "Map delivery unlocked.",
             rewardTimer := some tid,
             inFlight := s.inFlight - 1 }
  else
    { s with sendState := .error, sendMsg := msg,
             inFlight := s.inFlight - 1 }

/-- The email input's change handler: store the text; a non-idle send
status falls back to idle. -/
def wizardEditEmail (e : String) (s : WState) : WState :=
  { s with email := e,
           sendState := if s.sendState = .idle then s.sendState else .idle,
           sendMsg := if s.sendState = .idle then s.sendMsg else "" }

/-- The reward timer firing with a navigation continuation
(`goTo("p3")`, `goTo("p4")`): overlay cleared, timer consumed, view
set. -/
def wizardTimerNav (v : View) (s : WState) : WState :=
  { s with rewardOn := false, rewardLetter := none, rewardCopy := "",
           rewardTimer := none, view := v }

/-- The reward timer firing with the email-success continuation
(`setP5Stage("code")`). -/
def wizardTimerCode (s : WState) : WState :=
  { s with rewardOn := false, rewardLetter := none, rewardCopy := "",
           rewardTimer := none, p5Stage := .code }

/-- The initial session state of `App`. -/
def initialWState : WState :=
  { view := .landing, firstName := "", lastName := "", email := "",
    accessCode := "", codeInput := "", p2First := "",
    p5Stage := .email, sendState := .idle, sendMsg := "",
    rewardOn := false, rewardLetter := none, rewardCopy := "",
    rewardTimer := none, fatalError := none, inFlight := 0 }

/-- States of one wizard session reachable through the events that
touch the submission subsystem. The email field can only be edited
while its input is enabled (not during the reward overlay or an active
send); a completion requires a pending promise. -/
inductive WReach : WState → Prop where
  | init : WReach initialWState
  | submit (s : WState) (rs : List (Fin 32)) :
      WReach s → WReach (wizardSubmitEmail rs s).fst
  | complete (s : WState) (ok : Bool) (msg : String) (tid : Nat) :
      WReach s → 0 < s.inFlight → WReach (wizardComplete ok msg tid s)
  | edit (s : WState) (e : String) :
      WReach s → s.rewardOn = false → s.sendState ≠ .sending →
      WReach (wizardEditEmail e s)
  | timerNav (s : WState) (v : View) :
      WReach s → s.rewardTimer.isSome → WReach (wizardTimerNav v s)
  | timerCode (s : WState) :
      WReach s → s.rewardTimer.isSome → WReach (wizardTimerCode s)
  | code (s : WState) :
      WReach s → WReach (submitCode s)

/-! ### Concrete instances used by witnesses and counterexamples -/

/-- A concrete `JSON.parse` behaviour: the string `rawbody` denotes a
body with an `applicant` object; everything else fails to parse. -/
def jpEx : JsonParse := fun s =>
  if s = "rawbody" then .ok (.obj [("applicant", .obj [])])
  else .error "Unexpected token"

/-- A concrete valid configuration. -/
def env0 : Env := ⟨"https://crm.example", "secret-key", ""⟩

/-- A configuration whose base address is missing. -/
def envMissing : Env := ⟨"", "k", ""⟩

/-- A network where the upstream answers 201 with a parseable body. -/
def net0 : Net := ⟨none, ⟨201, "application/json", "rawbody"⟩⟩

/-- A network where the upstream answers 403 with a 501-character
plain-text body. -/
def net403text : Net :=
  ⟨none, ⟨403, "text/plain", String.mk (List.replicate 501 'a')⟩⟩

/-- A network where the upstream answers 403 with a JSON content type
but a body that fails to parse. -/
def net403json : Net :=
  ⟨none, ⟨403, "application/json", "garbage"⟩⟩

/-- A request body holding an `applicant` object. -/
def bodyApp : Json := .obj [("applicant", .obj [])]

/-- Eight zero draws for the access-code generator: the code
`AAAAAAAA`. -/
def rsA : List (Fin 32) := List.replicate 8 0

/-- A session sitting at the code gate with the generated code
`AAAAAAAA`. -/
def stateAtCode : WState :=
  { initialWState with view := .p5, p5Stage := .code,
                       accessCode := genAccessCode rsA }

/-- A session with a submission in flight. -/
def stateSending : WState :=
  { initialWState with view := .p5, sendState := .sending, inFlight := 1 }

/-- Spec-side predicate for claim C9, following the spec words: every
applicant field not collected by this funnel variant is defaulted to
the empty string or zero (for the one Boolean field, the empty default
is `false`). This is compared against `buildCanonPayload`. -/
def specNonCollectedDefaulted (a : Applicant) : Prop :=
  a.phone = "" ∧ a.consent = false ∧ a.vehicleType = "" ∧
  a.incomeAbove1800 = "" ∧ a.monthlyIncome = "" ∧
  a.yearsReceivingIncome = 0 ∧ a.monthsReceivingIncome = 0 ∧
  a.dobMonth = 0 ∧ a.dobDay = 0 ∧ a.dobYear = 0 ∧ a.companyName = "" ∧
  a.jobTitle = "" ∧ a.housingPayment = "" ∧ a.street1 = "" ∧
  a.street2 = "" ∧ a.city = "" ∧ a.state = "" ∧ a.zip = "" ∧
  a.yearsAtAddress = 0 ∧ a.monthsAtAddress = 0 ∧ a.ssn = ""

/-! ### Helper lemmas -/

theorem dropWhile_eq_self_of_all (p : Char → Bool) (l : List Char)
    (h : ∀ c ∈ l, p c = false) : l.dropWhile p = l := by
  cases l with
  | nil => rfl
  | cons a as =>
    rw [List.dropWhile_cons, h a (List.mem_cons_self a as)]
    simp

theorem trimList_eq_self (l : List Char) (h : ∀ c ∈ l, jsIsWs c = false) :
    trimList l = l := by
  unfold trimList
  rw [dropWhile_eq_self_of_all _ _ h,
      dropWhile_eq_self_of_all _ _ (fun c hc => h c (List.mem_reverse.mp hc)),
      List.reverse_reverse]

theorem codeCharAt_not_ws : ∀ i : Fin 32, jsIsWs (codeCharAt i) = false := by
  decide

theorem codeCharAt_upper : ∀ i : Fin 32,
    jsUpperChar (codeCharAt i) = codeCharAt i := by
  decide

theorem jsTrim_genAccessCode (rs : List (Fin 32)) :
    jsTrim (genAccessCode rs) = genAccessCode rs := by
  show String.mk (trimList (rs.map codeCharAt)) = String.mk (rs.map codeCharAt)
  rw [trimList_eq_self]
  intro c hc
  obtain ⟨i, _, rfl⟩ := List.mem_map.mp hc
  exact codeCharAt_not_ws i

theorem jsToUpper_genAccessCode (rs : List (Fin 32)) :
    jsToUpper (genAccessCode rs) = genAccessCode rs := by
  show String.mk ((rs.map codeCharAt).map jsUpperChar) = String.mk (rs.map codeCharAt)
  rw [List.map_map]
  congr 1
  apply List.map_congr_left
  intro i _
  exact codeCharAt_upper i

theorem string_mk_ne_empty (l : List Char) (h : l ≠ []) : String.mk l ≠ "" := by
  intro he
  exact h (congrArg String.data he)

theorem genAccessCode_ne_empty (rs : List (Fin 32)) (h : rs ≠ []) :
    genAccessCode rs ≠ "" := by
  apply string_mk_ne_empty
  simpa using h

theorem jsToUpper_ne_empty (s : String) (h : s ≠ "") : jsToUpper s ≠ "" := by
  apply string_mk_ne_empty
  intro hm
  apply h
  cases s with
  | mk l => cases List.map_eq_nil_iff.mp hm; rfl

theorem submitCode_inFlight (t : WState) :
    (submitCode t).inFlight = t.inFlight := by
  simp only [submitCode, goTo]
  repeat' split
  all_goals rfl

theorem submitCode_sendState (t : WState) :
    (submitCode t).sendState = t.sendState := by
  simp only [submitCode, goTo]
  repeat' split
  all_goals rfl

theorem wreach_flight_invariant (s : WState) (h : WReach s) :
    s.inFlight = (if s.sendState = SendState.sending then 1 else 0) := by
  induction h with
  | init => rfl
  | submit t rs _ ih =>
    unfold wizardSubmitEmail
    by_cases hr : t.rewardOn
    · simpa [hr] using ih
    · by_cases hs : t.sendState = SendState.sending
      · simpa [hr, hs] using ih
      · by_cases he : isValidEmail (safeTrimMax t.email 120)
        · have h0 : t.inFlight = 0 := by rw [ih, if_neg hs]
          simp [hr, hs, he, h0]
        · simp [hr, hs, he, ih]
  | complete t ok msg tid _ hpos ih =>
    have hsend : t.sendState = SendState.sending := by
      by_contra hn
      rw [ih, if_neg hn] at hpos
      exact Nat.lt_irrefl 0 hpos
    have h1 : t.inFlight = 1 := by rw [ih, if_pos hsend]
    unfold wizardComplete
    by_cases hok : ok <;> simp [hok, h1]
  | edit t e _ _ hns ih =>
    have h0 : t.inFlight = 0 := by rw [ih, if_neg hns]
    unfold wizardEditEmail
    by_cases hi : t.sendState = SendState.idle <;> simp [hi, h0, hns]
  | timerNav t v _ _ ih =>
    simpa [wizardTimerNav] using ih
  | timerCode t _ _ ih =>
    simpa [wizardTimerCode] using ih
  | code t _ ih =>
    rw [submitCode_inFlight, submitCode_sendState, ih]

/-! ### Claim theorems -/

/-- C2: in the code-gate step (reward overlay off, access code
generated by `generateAccessCode`), submitting a string equal to the
code under case-insensitive whitespace-trimmed comparison advances the
view to the final screen, and submitting any string that differs under
that comparison leaves the state (hence the view) unchanged. -/
theorem code_gate_advances_iff_match (s : WState) (rs : List (Fin 32))
    (e : String) (hR : s.rewardOn = false)
    (hC : s.accessCode = genAccessCode rs) (hrs : rs.length = 8) :
    (jsToUpper (jsTrim e) = jsToUpper (jsTrim s.accessCode) →
      (submitCode { s with codeInput := e }).view = View.info) ∧
    (jsToUpper (jsTrim e) ≠ jsToUpper (jsTrim s.accessCode) →
      submitCode { s with codeInput := e } = { s with codeInput := e }) := by
  have hExp : jsToUpper (jsTrim s.accessCode) = genAccessCode rs := by
    rw [hC, jsTrim_genAccessCode, jsToUpper_genAccessCode]
  have hNe : genAccessCode rs ≠ "" := by
    apply genAccessCode_ne_empty
    intro h
    rw [h] at hrs
    simp at hrs
  constructor
  · intro hm
    simp only [submitCode, hR, Bool.false_eq_true, if_false, goTo]
    rw [hm, hExp, if_neg hNe, if_neg (fun hcon => hcon.2 rfl)]
  · intro hm
    simp only [submitCode, hR, Bool.false_eq_true, if_false, goTo]
    by_cases hz : jsToUpper (jsTrim e) = ""
    · rw [if_pos hz]
    · rw [if_neg hz, if_pos ⟨by rw [hExp]; exact hNe, hm⟩]

/-- Witness for C2 at the concrete code `AAAAAAAA`: the lower-case
padded entry `" aaaaaaaa "` advances to the final screen, and the entry
`WRONG` changes nothing. -/
theorem code_gate_advances_iff_match_witness :
    (submitCode { stateAtCode with codeInput := " aaaaaaaa " }).view = View.info ∧
    submitCode { stateAtCode with codeInput := "WRONG" } =
      { stateAtCode with codeInput := "WRONG" } :=
  ⟨(code_gate_advances_iff_match stateAtCode rsA " aaaaaaaa " rfl rfl rfl).1 (by decide),
   (code_gate_advances_iff_match stateAtCode rsA "WRONG" rfl rfl rfl).2 (by decide)⟩

/-- C10: if the stored access code is the empty string, `submitCode`
skips the equality check (the guard `expected && entered !== expected`
is short-circuited by the falsy empty `expected`), so any entry that is
non-empty after trimming advances the view to the final screen. -/
theorem empty_access_code_gate_bypass (s : WState) (e : String)
    (hR : s.rewardOn = false) (hA : s.accessCode = "")
    (hE : jsTrim e ≠ "") :
    (submitCode { s with codeInput := e }).view = View.info := by
  have hEnt : jsToUpper (jsTrim e) ≠ "" := jsToUpper_ne_empty _ hE
  simp only [submitCode, hR, Bool.false_eq_true, if_false, goTo]
  rw [hA, if_neg hEnt, if_neg (fun hcon => hcon.1 rfl)]

/-- Witness for C10: with an empty stored code, entering `anything`
advances to the final screen. -/
theorem empty_access_code_gate_bypass_witness :
    (submitCode { { initialWState with view := View.p5, p5Stage := P5Stage.code } with codeInput := "anything" }).view = View.info :=
  empty_access_code_gate_bypass
    { initialWState with view := View.p5, p5Stage := P5Stage.code }
    "anything" rfl rfl (by decide)

/-- C8: the resubmission guard. Triggering the email submission while
`sendState` is `sending` returns the state unchanged and issues no
outbound call, and in every session state reachable through the
submission subsystem at most one submission is in flight. -/
theorem single_inflight_submission :
    (∀ (s : WState) (rs : List (Fin 32)), s.sendState = SendState.sending →
      wizardSubmitEmail rs s = (s, 0)) ∧
    (∀ s : WState, WReach s → s.inFlight ≤ 1) := by
  constructor
  · intro s rs h
    simp [wizardSubmitEmail, h]
  · intro s h
    rw [wreach_flight_invariant s h]
    split <;> simp

/-- Witness for C8: a concrete sending state is left untouched with no
second call, and the initial session state has at most one in-flight
submission. -/
theorem single_inflight_submission_witness :
    wizardSubmitEmail rsA stateSending = (stateSending, 0) ∧
    initialWState.inFlight ≤ 1 :=
  ⟨single_inflight_submission.1 stateSending rsA rfl,
   single_inflight_submission.2 initialWState WReach.init⟩

/-- Counterexample to C4 as stated: invoking `resetFlow` from the final
screen does not return the session to the landing view — `resetFlow`
contains no view change, so the view stays `info`. -/
theorem resetFlow_does_not_return_to_landing :
    (resetFlow { initialWState with view := View.info, firstName := "Ann" }).view
      ≠ View.landing := by
  decide

/-- C4 (amended): `resetFlow` clears every captured field (first name,
last name, email, access code, entered code, first-name scratch),
resets the send status and cancels the pending reward timer, but
leaves the current view unchanged; returning to the landing view is a
separate navigation (`goTo("landing")`) that clears nothing. -/
theorem resetFlow_clears_fields_keeps_view (s : WState) :
    (resetFlow s).view = s.view ∧
    (resetFlow s).firstName = "" ∧ (resetFlow s).lastName = "" ∧
    (resetFlow s).email = "" ∧ (resetFlow s).accessCode = "" ∧
    (resetFlow s).codeInput = "" ∧ (resetFlow s).p2First = "" ∧
    (resetFlow s).rewardTimer = none ∧ (resetFlow s).rewardOn = false ∧
    (resetFlow s).sendState = SendState.idle ∧
    (∀ v : View, (goTo v s).firstName = s.firstName ∧ (goTo v s).email = s.email) :=
  ⟨rfl, rfl, rfl, rfl, rfl, rfl, rfl, rfl, rfl, rfl, fun _ => ⟨rfl, rfl⟩⟩

/-- Counterexample to C9 as stated: the non-collected `consent` field of
the applicant record is defaulted to `true`, not to an empty/zero
value. -/
theorem applicant_consent_not_empty_or_zero :
    ¬ specNonCollectedDefaulted
      (buildCanonPayload "rid" "t0" none none none "Ann" "Bee" "a@b.c" "CODE").applicant := by
  unfold specNonCollectedDefaulted
  decide

/-- C9 (amended): every lead payload carries an applicant record of the
fixed upstream shape whose name and email fields come from the trimmed,
bounded user input, and every field not collected by this funnel is
defaulted to the empty string or zero — except `consent`, which is
defaulted to `true`. -/
theorem applicant_shape_defaults (requestId startedAt : String)
    (ua pageUrl referrer : Option String) (fn ln em code : String) :
    ∀ a : Applicant,
    a = (buildCanonPayload requestId startedAt ua pageUrl referrer
          fn ln em code).applicant →
    a.firstName = safeTrimMax fn 40 ∧ a.lastName = safeTrimMax ln 60 ∧
    a.email = safeTrimMax em 120 ∧ a.phone = "" ∧ a.consent = true ∧
    a.vehicleType = "" ∧ a.incomeAbove1800 = "" ∧ a.monthlyIncome = "" ∧
    a.yearsReceivingIncome = 0 ∧ a.monthsReceivingIncome = 0 ∧
    a.dobMonth = 0 ∧ a.dobDay = 0 ∧ a.dobYear = 0 ∧ a.companyName = "" ∧
    a.jobTitle = "" ∧ a.housingPayment = "" ∧ a.street1 = "" ∧
    a.street2 = "" ∧ a.city = "" ∧ a.state = "" ∧ a.zip = "" ∧
    a.yearsAtAddress = 0 ∧ a.monthsAtAddress = 0 ∧ a.ssn = "" := by
  rintro a rfl
  exact ⟨rfl, rfl, rfl, rfl, rfl, rfl, rfl, rfl, rfl, rfl, rfl, rfl, rfl, rfl,
    rfl, rfl, rfl, rfl, rfl, rfl, rfl, rfl, rfl, rfl⟩

/-- Witness for C9 at a concrete submission: the collected email is the
trimmed input and the non-collected consent field is `true`. -/
theorem applicant_shape_defaults_witness :
    (buildCanonPayload "r" "t" none none none "Ann" "Bee" " a@b.c " "X").applicant.email
      = "a@b.c" ∧
    (buildCanonPayload "r" "t" none none none "Ann" "Bee" " a@b.c " "X").applicant.consent
      = true :=
  ⟨((applicant_shape_defaults "r" "t" none none none "Ann" "Bee" " a@b.c " "X"
      _ rfl).2.2.1).trans (by decide),
   (applicant_shape_defaults "r" "t" none none none "Ann" "Bee" " a@b.c " "X"
      _ rfl).2.2.2.2.1⟩

/-- C1 (evaluation at the failing input): for a valid POST forwarded
with valid configuration, the second part_003 handler issues its single
outbound call with the credential header present twice (`X-API-Key` and
`X-API-KEY` are distinct object keys, both appended to the
case-insensitive header list), while the part_000 handler sends exactly
one credential header. This contradicts the claim that duplicate
credential headers are never sent, and contradicts the code's own
comment in the last App.tsx relay variant ("send ONLY ONE API key
header"). -/
theorem dup_variant_sends_two_credential_headers :
    ((handlerDup jpEx env0 net0 "POST" bodyApp).snd.map
        (fun c => credHeaderCount c.headers)) = [2] ∧
    ((handlerRaw jpEx env0 net0 "POST" (Except.ok "rawbody")).snd.map
        (fun c => credHeaderCount c.headers)) = [1] := by
  constructor <;> rfl

/-- Counterexample to C5 as stated: the minimal part_002 relay variant
has no OPTIONS branch, so a pre-flight OPTIONS request receives a 405
method-not-allowed response with an error body — not a trivial success
with no body. -/
theorem min_variant_options_method_not_allowed :
    (handlerMin jpEx env0 net0 "OPTIONS" bodyApp).fst.status = 405 ∧
    (handlerMin jpEx env0 net0 "OPTIONS" bodyApp).fst.body =
      some (.obj [("ok", .bool false), ("error", .str "Method not allowed")]) :=
  ⟨rfl, rfl⟩

/-- C5 (amended): the relay variants that handle OPTIONS explicitly
answer it with a bodyless success (part_000 with 200, the strict
part_003 variant with 204), for every configuration and body; the
minimal part_002 variant instead treats OPTIONS as a disallowed method
and returns 405 with an error body. -/
theorem options_preflight_behavior (parse : JsonParse) (env : Env) (net : Net)
    (rb : Except String String) (body : Json) :
    handlerRaw parse env net "OPTIONS" rb = (⟨200, none⟩, []) ∧
    handlerStrict parse env net "OPTIONS" body = (⟨204, none⟩, []) ∧
    (handlerMin parse env net "OPTIONS" body).fst.status = 405 ∧
    (handlerMin parse env net "OPTIONS" body).fst.body ≠ none := by
  refine ⟨rfl, rfl, rfl, ?_⟩
  intro h
  exact Option.noConfusion h

/-- Counterexample to C6 as stated: with the base address missing, an
OPTIONS request to the part_000 handler is still answered with 200, not
500 — the configuration check runs only after the method branches, so
the relay does not respond to EVERY request with 500. -/
theorem options_ignores_missing_config :
    (handlerRaw jpEx envMissing net0 "OPTIONS" (Except.ok "")).fst.status = 200 ∧
    (handlerRaw jpEx envMissing net0 "OPTIONS" (Except.ok "")).fst.status ≠ 500 :=
  ⟨rfl, by decide⟩

/-- C6 (amended): when the base address or the credential is absent,
every POST request is answered with status 500 and no outbound call:
the part_000 variant lists which of the two configuration values is
missing via its `missing` map, while the minimal part_002 variant names
both candidate variables jointly; the response carries no string leaf
equal to the credential value. Pre-flight OPTIONS and other non-POST
methods keep their usual responses (see the counterexample). -/
theorem missing_config_post_500 (parse : JsonParse) (env : Env) (net : Net)
    (rb : Except String String) (body : Json)
    (h : env.baseUrl = "" ∨ env.apiKey = "")
    (hk : env.apiKey ≠ "Missing REPLIT_CRM_BASE_URL or REPLIT_NP_API_KEY") :
    (handlerRaw parse env net "POST" rb =
      (⟨500, some (.obj [("ok", .bool false),
        ("error", .str "Missing REPLIT_CRM_BASE_URL or REPLIT_NP_API_KEY"),
        ("missing", .obj [("REPLIT_CRM_BASE_URL", .bool (env.baseUrl == "")),
                          ("REPLIT_NP_API_KEY", .bool (env.apiKey == ""))])])⟩, [])) ∧
    (handlerMin parse env net "POST" body =
      (⟨500, some (.obj [("ok", .bool false),
        ("error", .str "Missing REPLIT_CRM_BASE_URL or REPLIT_NP_API_KEY")])⟩, [])) ∧
    jsonContainsStr env.apiKey
      ((handlerRaw parse env net "POST" rb).fst.body.getD Json.null) = false := by
  have hcond : (env.baseUrl = "" || env.apiKey = "") = true := by
    rcases h with h | h <;> simp [h]
  refine ⟨?_, ?_, ?_⟩
  · simp only [handlerRaw]
    rw [if_neg (by decide), if_neg (by decide), if_pos hcond]
  · simp only [handlerMin]
    rw [if_neg (by decide), if_pos hcond]
  · simp only [handlerRaw]
    rw [if_neg (by decide), if_neg (by decide), if_pos hcond]
    simp only [Option.getD_some, jsonContainsStr, jsonFieldsContainStr]
    simp [beq_eq_false_iff_ne, Ne.symm hk]

/-- Witness for C6 at a concrete missing base address: both variants
answer a POST with 500, and the part_000 response contains no string
leaf equal to the credential `k`. -/
theorem missing_config_post_500_witness :
    (handlerRaw jpEx envMissing net0 "POST" (Except.ok "x")).fst.status = 500 ∧
    (handlerMin jpEx envMissing net0 "POST" bodyApp).fst.status = 500 ∧
    jsonContainsStr "k"
      ((handlerRaw jpEx envMissing net0 "POST" (Except.ok "x")).fst.body.getD Json.null)
      = false := by
  obtain ⟨h1, h2, h3⟩ :=
    missing_config_post_500 jpEx envMissing net0 (Except.ok "x") bodyApp
      (Or.inl rfl) (by decide)
  exact ⟨by rw [h1], by rw [h2], h3⟩

/-- Counterexample to C7 as stated: the lenient relay variant embedded
in App.tsx keeps a string body that fails JSON parsing ("keep as
string") and still forwards it upstream — one outbound call is made and
the response is not a client error (here the upstream accepts, so the
relay even returns 200). -/
theorem lenient_variant_forwards_unparseable_body :
    (handlerLenient jpEx env0 net0 "POST" (Json.str "oops")).snd.length = 1 ∧
    (handlerLenient jpEx env0 net0 "POST" (Json.str "oops")).fst.status = 200 ∧
    ((handlerLenient jpEx env0 net0 "POST" (Json.str "oops")).snd.map
        (fun c => c.body)) = [Json.str "oops"] :=
  ⟨rfl, rfl, rfl⟩

/-- C7 (amended): the part_000 variant answers an empty body, and a
body that fails JSON parsing, with a 400 client error naming the
failure (with a 500-character preview) and makes no outbound call; the
strict part_003 variant likewise rejects an unparseable string body
with 400 and no outbound call; the lenient App.tsx variant, however,
forwards an unparseable string body upstream instead of rejecting it
(see the counterexample). -/
theorem parse_failure_client_error (parse : JsonParse) (env : Env) (net : Net)
    (raw s msg : String) :
    (env.baseUrl ≠ "" → env.apiKey ≠ "" → jsTrim raw = "" →
      handlerRaw parse env net "POST" (Except.ok raw) =
        (⟨400, some (.obj [("ok", .bool false),
          ("error", .str "Empty request body received by relay"),
          ("hint", .str "Your frontend must POST JSON to /api/applications")])⟩, [])) ∧
    (env.baseUrl ≠ "" → env.apiKey ≠ "" → jsTrim raw ≠ "" → parse raw = .error msg →
      handlerRaw parse env net "POST" (Except.ok raw) =
        (⟨400, some (.obj [("ok", .bool false),
          ("error", .str "Invalid JSON body"),
          ("detail", .str (if msg = "" then "Invalid JSON" else msg)),
          ("rawPreview", .str (jsTake 500 raw))])⟩, [])) ∧
    (jsTrim env.baseUrl ≠ "" → jsTrim env.apiKey ≠ "" → parse s = .error msg →
      (handlerStrict parse env net "POST" (Json.str s)).fst.status = 400 ∧
      (handlerStrict parse env net "POST" (Json.str s)).snd = []) := by
  refine ⟨?_, ?_, ?_⟩
  · intro hb hk ht
    simp only [handlerRaw]
    rw [if_neg (by decide), if_neg (by decide),
        if_neg (by simp [hb, hk]), if_pos (by simp [ht])]
  · intro hb hk ht hp
    have hraw : ¬ (raw = "") := fun hr => ht (by rw [hr]; rfl)
    simp only [handlerRaw]
    rw [if_neg (by decide), if_neg (by decide), if_neg (by simp [hb, hk]),
        if_neg (by simp [hraw, ht]), hp]
  · intro hb hk hp
    simp only [handlerStrict]
    rw [if_neg (by decide), if_neg (by decide), if_neg (by simp [hb, hk]), hp]
    exact ⟨rfl, rfl⟩

/-- Witness for C7: the empty body `"  "` and the unparseable body
`nonsense` each yield a 400 with no outbound call, in both rejecting
variants. -/
theorem parse_failure_client_error_witness :
    (handlerRaw jpEx env0 net0 "POST" (Except.ok "  ")).fst.status = 400 ∧
    (handlerRaw jpEx env0 net0 "POST" (Except.ok "nonsense")).fst.status = 400 ∧
    (handlerRaw jpEx env0 net0 "POST" (Except.ok "nonsense")).snd = [] ∧
    (handlerStrict jpEx env0 net0 "POST" (Json.str "nonsense")).fst.status = 400 ∧
    (handlerStrict jpEx env0 net0 "POST" (Json.str "nonsense")).snd = [] := by
  have ha :=
    (parse_failure_client_error jpEx env0 net0 "  " "x" "Unexpected token").1
      (by decide) (by decide) (by decide)
  have hb :=
    (parse_failure_client_error jpEx env0 net0 "nonsense" "x" "Unexpected token").2.1
      (by decide) (by decide) (by decide) rfl
  have hc :=
    (parse_failure_client_error jpEx env0 net0 "r" "nonsense" "Unexpected token").2.2
      (by decide) (by decide) rfl
  exact ⟨by rw [ha], by rw [hb], by rw [hb], hc.1, hc.2⟩


set_option maxRecDepth 8192 in
/-- Counterexample to C3 as stated: for an upstream 403 whose
plain-text body has 501 characters, the strict part_003 variant in
non-debug mode reports `upstreamBody` as only the first 500 characters
(`slice(0, 500)`), so the upstream body content is not recoverable in
full by the caller. -/
theorem strict_variant_truncates_upstream_text :
    (handlerStrict jpEx env0 net403text "POST" bodyApp).fst.status = 403 ∧
    getProp ((handlerStrict jpEx env0 net403text "POST" bodyApp).fst.body.getD Json.null)
        "upstreamBody" = some (Json.str (String.mk (List.replicate 500 'a'))) ∧
    String.mk (List.replicate 500 'a') ≠ net403text.upstream.bodyText := by
  refine ⟨rfl, rfl, ?_⟩
  intro h
  have hlen := congrArg (fun t => t.data.length) h
  simp [net403text] at hlen

/-- C3 (amended): for every upstream response with status at least 300
(and a completed fetch), the part_000 and part_002 variants answer 502
with the upstream status in `upstreamStatus` and the full upstream body
in `upstreamBody` (parsed as JSON when parseable, else wrapped as
`{raw: text}`); the strict part_003 variant passes the upstream status
through as its own status and reports it in `status`, and includes the
upstream body, except that in non-debug mode a non-JSON (plain-text)
body is truncated to its first 500 characters (see the counterexample),
and when the content type indicates JSON but the body fails to parse,
`upstream.json()` throws and the catch answers 500 with the generic
relay-failure message and no upstream status or body at all (last
conjunct, in debug and non-debug mode alike). -/
theorem upstream_error_status_body_preserved (parse : JsonParse) (env : Env)
    (net : Net) (raw : String) (payload : Json) (fields : List (String × Json))
    (emsg : String)
    (h300 : 300 ≤ net.upstream.status) (hferr : net.fetchErr = none) :
    (env.baseUrl ≠ "" → env.apiKey ≠ "" → jsTrim raw ≠ "" → parse raw = .ok payload →
      (handlerRaw parse env net "POST" (Except.ok raw)).fst.status = 502 ∧
      getProp ((handlerRaw parse env net "POST" (Except.ok raw)).fst.body.getD Json.null)
          "upstreamStatus" = some (.num (Int.ofNat net.upstream.status)) ∧
      getProp ((handlerRaw parse env net "POST" (Except.ok raw)).fst.body.getD Json.null)
          "upstreamBody" = some (match parse net.upstream.bodyText with
            | .ok j => j
            | .error _ => .obj [("raw", .str net.upstream.bodyText)])) ∧
    (env.baseUrl ≠ "" → env.apiKey ≠ "" →
      (handlerMin parse env net "POST" payload).fst.status = 502 ∧
      getProp ((handlerMin parse env net "POST" payload).fst.body.getD Json.null)
          "upstreamStatus" = some (.num (Int.ofNat net.upstream.status)) ∧
      getProp ((handlerMin parse env net "POST" payload).fst.body.getD Json.null)
          "upstreamBody" = some (match parse net.upstream.bodyText with
            | .ok j => j
            | .error _ => .obj [("raw", .str net.upstream.bodyText)])) ∧
    (jsTrim env.baseUrl ≠ "" → jsTrim env.apiKey ≠ "" →
     jsToLower env.debugFlag ≠ "true" →
     jsIncludes net.upstream.contentType "application/json" = false →
     jsTruthyOpt (getProp (Json.obj fields) "applicant") = true →
      (handlerStrict parse env net "POST" (Json.obj fields)).fst.status
        = net.upstream.status ∧
      getProp ((handlerStrict parse env net "POST" (Json.obj fields)).fst.body.getD Json.null)
          "status" = some (.num (Int.ofNat net.upstream.status)) ∧
      getProp ((handlerStrict parse env net "POST" (Json.obj fields)).fst.body.getD Json.null)
          "upstreamBody" = some (.str (jsTake 500 net.upstream.bodyText))) ∧
    (jsTrim env.baseUrl ≠ "" → jsTrim env.apiKey ≠ "" →
     jsIncludes net.upstream.contentType "application/json" = true →
     parse net.upstream.bodyText = .error emsg →
     jsTruthyOpt (getProp (Json.obj fields) "applicant") = true →
      (handlerStrict parse env net "POST" (Json.obj fields)).fst.status = 500 ∧
      getProp ((handlerStrict parse env net "POST" (Json.obj fields)).fst.body.getD Json.null)
          "error" = some (.str "Relay failed (network/runtime error)") ∧
      getProp ((handlerStrict parse env net "POST" (Json.obj fields)).fst.body.getD Json.null)
          "status" = none ∧
      getProp ((handlerStrict parse env net "POST" (Json.obj fields)).fst.body.getD Json.null)
          "upstreamStatus" = none ∧
      getProp ((handlerStrict parse env net "POST" (Json.obj fields)).fst.body.getD Json.null)
          "upstreamBody" = none) := by
  have hnok : statusOk net.upstream.status = false := by
    simp only [statusOk, Bool.and_eq_false_iff]
    right
    simp only [decide_eq_false_iff_not, Nat.not_lt]
    omega
  refine ⟨?_, ?_, ?_, ?_⟩
  · intro hb hk ht hp
    have hraw : ¬ (raw = "") := fun hr => ht (by rw [hr]; rfl)
    simp only [handlerRaw]
    rw [if_neg (by decide), if_neg (by decide), if_neg (by simp [hb, hk]),
        if_neg (by simp [hraw, ht]), hp, hferr]
    simp only [hnok, Bool.not_false, if_true]
    refine ⟨trivial, ?_, ?_⟩ <;> cases hpt : parse net.upstream.bodyText <;>
      simp [getProp, hpt]
  · intro hb hk
    simp only [handlerMin]
    rw [if_neg (by decide), if_neg (by simp [hb, hk]), hferr]
    simp only [hnok, Bool.not_false, if_true]
    refine ⟨trivial, ?_, ?_⟩ <;> cases hpt : parse net.upstream.bodyText <;>
      simp [getProp, hpt]
  · intro hb hk hd hct happ
    have hdb : (jsToLower env.debugFlag == "true") = false := by
      simp [hd]
    simp only [handlerStrict, hdb]
    rw [if_neg (by decide), if_neg (by decide), if_neg (by simp [hb, hk]), hferr]
    simp only [jsTruthy, jsTypeofObject, happ, hct, Bool.and_true, Bool.true_and,
      Bool.not_true, Bool.false_eq_true, if_false, hnok, Bool.not_false, if_true]
    refine ⟨trivial, ?_, ?_⟩ <;> simp [getProp]
  · intro hb hk hct hp happ
    simp only [handlerStrict]
    rw [if_neg (by decide), if_neg (by decide), if_neg (by simp [hb, hk]), hferr]
    simp only [jsTruthy, jsTypeofObject, happ, hct, Bool.and_true, Bool.true_and,
      Bool.not_true, Bool.false_eq_true, if_false, if_true, hp]
    by_cases hdbg : (jsToLower env.debugFlag == "true") = true <;>
      simp [hdbg, getProp]

/-- Witness for C3 at the concrete 403 plain-text upstream: the
part_000 and part_002 variants preserve status and body, and the strict
variant passes 403 through with the truncated text; at the concrete 403
JSON-content-type upstream with an unparseable body, the strict variant
answers 500 with no upstream body. -/
theorem upstream_error_status_body_preserved_witness :
    (handlerRaw jpEx env0 net403text "POST" (Except.ok "rawbody")).fst.status = 502 ∧
    getProp ((handlerRaw jpEx env0 net403text "POST" (Except.ok "rawbody")).fst.body.getD Json.null)
        "upstreamStatus" = some (Json.num 403) ∧
    (handlerMin jpEx env0 net403text "POST" bodyApp).fst.status = 502 ∧
    (handlerStrict jpEx env0 net403text "POST"
        (Json.obj [("applicant", Json.obj [])])).fst.status = 403 ∧
    (handlerStrict jpEx env0 net403json "POST"
        (Json.obj [("applicant", Json.obj [])])).fst.status = 500 ∧
    getProp ((handlerStrict jpEx env0 net403json "POST"
        (Json.obj [("applicant", Json.obj [])])).fst.body.getD Json.null)
      "upstreamBody" = none := by
  obtain ⟨hA, hB, hC, _⟩ :=
    upstream_error_status_body_preserved jpEx env0 net403text "rawbody" bodyApp
      [("applicant", Json.obj [])] "Unexpected token" (by decide) rfl
  obtain ⟨hA1, hA2, _⟩ := hA (by decide) (by decide) (by decide) rfl
  obtain ⟨hB1, _, _⟩ := hB (by decide) (by decide)
  obtain ⟨hC1, _, _⟩ := hC (by decide) (by decide) (by decide) (by decide) rfl
  obtain ⟨_, _, _, hD⟩ :=
    upstream_error_status_body_preserved jpEx env0 net403json "rawbody" bodyApp
      [("applicant", Json.obj [])] "Unexpected token" (by decide) rfl
  obtain ⟨hD1, _, _, _, hD2⟩ := hD (by decide) (by decide) (by decide) rfl (by decide)
  exact ⟨hA1, hA2, hB1, hC1, hD1, hD2⟩
